import Mathlib

/-!
Shallow embedding of the Brightdata residential-proxy rotation core of the
retailflux-webscraper repository: the files config/brightdata_config.py,
middlewares/proxy_manager.py and middlewares/brightdata_proxy.py.

Modelling conventions:
* wall-clock instants are integer seconds, passed explicitly to every
  operation that calls datetime.now() or time.time();
* Python dicts are insertion-ordered association lists (alookup finds the
  first entry, aupdate replaces in place or appends, as CPython does);
* the outputs of random.uniform, random.choice and of the successive calls
  to ProxyManager._generate_session_id are explicit inputs (a Rand record
  and a candidate-id list);
* Python's per-process seeded builtin hash is an explicit function
  parameter pyHash;
* exceptions raised by the Python code are surfaced as explicit PyErr
  outcome constructors, with the state mutated so far preserved, matching
  Python semantics where mutations survive a raise;
* a Python float is modelled as an exact rational, carried as an explicit
  fraction (PyF) whose denoted value PyF.val is a library rational.
-/

namespace RetailFlux

/-- Python exceptions that the embedded code can raise. -/
inductive PyErr where
  | typeError (msg : String)
  | valueError (msg : String)
deriving DecidableEq

/-- Exact fraction arithmetic standing in for the Python floats of the
source.  The fraction is kept unnormalised with a positive denominator so
that every operation and comparison reduces inside the kernel (the library
rationals normalise through operations that do not reduce definitionally).
All float comparisons of the source are value comparisons on these
fractions; PyF.val interprets a fraction as the rational it denotes. -/
structure PyF where
  num : Int
  den : Int
  den_pos : 0 < den

instance : DecidableEq PyF := fun a b =>
  decidable_of_iff (a.num = b.num ∧ a.den = b.den)
    (by cases a; cases b; simp only [PyF.mk.injEq])

/-- The float a nonnegative integer literal denotes. -/
def PyF.ofNat (n : Nat) : PyF := ⟨n, 1, Int.zero_lt_one⟩

/-- The float an integer denotes. -/
def PyF.ofInt (n : Int) : PyF := ⟨n, 1, Int.zero_lt_one⟩

/-- Float addition. -/
def PyF.add (a b : PyF) : PyF :=
  ⟨a.num * b.den + b.num * a.den, a.den * b.den, mul_pos a.den_pos b.den_pos⟩

/-- Float multiplication. -/
def PyF.mul (a b : PyF) : PyF :=
  ⟨a.num * b.num, a.den * b.den, mul_pos a.den_pos b.den_pos⟩

/-- Float division, normalising the divisor sign into the numerator; the
source never divides by zero (every divisor is a positive count), so the
zero-divisor branch is arbitrary. -/
def PyF.div (a b : PyF) : PyF :=
  if h : 0 < b.num then ⟨a.num * b.den, a.den * b.num, mul_pos a.den_pos h⟩
  else if h' : b.num < 0 then
    ⟨-(a.num * b.den), a.den * (-b.num), mul_pos a.den_pos (neg_pos.mpr h')⟩
  else ⟨0, 1, Int.zero_lt_one⟩

/-- Float strict comparison, by cross multiplication. -/
def PyF.blt (a b : PyF) : Bool := decide (a.num * b.den < b.num * a.den)

/-- Float non-strict comparison, by cross multiplication. -/
def PyF.ble (a b : PyF) : Bool := decide (a.num * b.den ≤ b.num * a.den)

/-- Float value equality, by cross multiplication. -/
def PyF.beq (a b : PyF) : Bool := decide (a.num * b.den = b.num * a.den)

/-- Python sum over a float list: a left fold from zero. -/
def PyF.sumL (l : List PyF) : PyF := l.foldl PyF.add (PyF.ofNat 0)

/-- The rational a fraction denotes. -/
def PyF.val (a : PyF) : ℚ := (a.num : ℚ) / (a.den : ℚ)

/-- BrightdataConfig dataclass of config/brightdata_config.py (its declared
fields; country defaults to DE). -/
structure BrightdataConfig where
  username : String
  password : String
  endpoint : String
  port : Nat
  zone : String
  country : String
deriving DecidableEq

/-- The keyword parameter names accepted by the BrightdataConfig dataclass
constructor: exactly its declared fields. -/
def brightdataFieldNames : List String :=
  ["username", "password", "endpoint", "port", "zone", "country"]

/-- The keyword arguments that ProxyManager._ensure_sessions passes when it
constructs a per-session BrightdataConfig: the six fields plus session_id. -/
def ensureCallKwargs : List String :=
  ["username", "password", "endpoint", "port", "zone", "country", "session_id"]

/-- Calling the BrightdataConfig dataclass constructor with a given list of
keyword-argument names.  Python raises TypeError for a keyword that is not a
declared field, before running the body; __post_init__ then raises
ValueError unless username, password, endpoint, port and zone are all
truthy (country is not checked by the source). -/
def callBrightdataConfig (kwargs : List String) (username password endpoint : String)
    (port : Nat) (zone country : String) : Except PyErr BrightdataConfig :=
  if kwargs.all (fun k => brightdataFieldNames.contains k) then
    if username != ("") && password != ("") && endpoint != ("") && port != 0 && zone != ("") then
      Except.ok (BrightdataConfig.mk username password endpoint port zone country)
    else Except.error (PyErr.valueError ("Missing required Brightdata configuration parameters"))
  else Except.error (PyErr.typeError ("unexpected keyword argument session_id"))

/-- BrightdataConfig.proxy_url of the source. -/
def BrightdataConfig.proxy_url (c : BrightdataConfig) : String :=
  ("http://") ++ c.username ++ (":") ++ c.password ++ ("@") ++ c.endpoint ++ (":") ++ toString c.port

/-- ProxyMetrics dataclass of proxy_manager.py.  response_times is the
deque of at most 100 samples; timestamps are optional instants. -/
structure ProxyMetrics where
  requests_sent : Nat
  successful_requests : Nat
  failed_requests : Nat
  blocked_requests : Nat
  timeout_requests : Nat
  last_used : Option Int
  last_success : Option Int
  last_failure : Option Int
  average_response_time : PyF
  response_times : List PyF
deriving DecidableEq

/-- The ProxyMetrics() zero default used by the defaultdict. -/
def ProxyMetrics.init : ProxyMetrics :=
  { requests_sent := 0, successful_requests := 0, failed_requests := 0,
    blocked_requests := 0, timeout_requests := 0,
    last_used := none, last_success := none, last_failure := none,
    average_response_time := PyF.ofNat 0, response_times := [] }

/-- ProxyMetrics.success_rate of the source. -/
def ProxyMetrics.success_rate (m : ProxyMetrics) : PyF :=
  if m.requests_sent = 0 then PyF.ofNat 100
  else ((PyF.ofNat m.successful_requests).div (PyF.ofNat m.requests_sent)).mul (PyF.ofNat 100)

/-- ProxyMetrics.is_healthy of the source: below 80 percent success is
unhealthy; otherwise, when last_success is set the check is recency within
five minutes, and only when it is unset does the requests_sent below 5
give-it-a-chance rule apply. -/
def ProxyMetrics.is_healthy (now : Int) (m : ProxyMetrics) : Bool :=
  if m.success_rate.blt (PyF.ofNat 80) then false
  else
    match m.last_success with
    | some t => decide (now - t < 300)
    | none => decide (m.requests_sent < 5)

/-- ProxySession dataclass of proxy_manager.py. -/
structure ProxySession where
  session_id : String
  config : BrightdataConfig
  created_at : Int
  last_used : Int
  requests_count : Nat
  max_requests : Nat
  max_duration : Nat
deriving DecidableEq

/-- ProxySession.is_expired of the source.  The Python code reads
(now - created_at).seconds, the seconds component of the timedelta, which
for whole-second instants equals the total seconds modulo 86400 (Int.emod,
nonnegative for a positive modulus, matches CPython's normalisation), and
compares it with strict greater-than. -/
def ProxySession.is_expired (now : Int) (s : ProxySession) : Bool :=
  (decide (((now - s.created_at).emod 86400) > (s.max_duration : Int)))
    || (decide (s.requests_count ≥ s.max_requests))

/-- ProxySession.proxy_url of the source. -/
def ProxySession.proxy_url (s : ProxySession) : String :=
  s.config.proxy_url

/-- ProxySession.use of the source. -/
def ProxySession.use (now : Int) (s : ProxySession) : ProxySession :=
  { s with last_used := now, requests_count := s.requests_count + 1 }

/-- Insertion-ordered dict lookup: the value of the first entry whose key
matches. -/
def alookup {α : Type} (l : List (String × α)) (k : String) : Option α :=
  match l with
  | [] => none
  | (k', v) :: t => if k' = k then some v else alookup t k

/-- Insertion-ordered dict assignment: replace the value at the first
matching key in place, or append a new entry. -/
def aupdate {α : Type} (l : List (String × α)) (k : String) (v : α) : List (String × α) :=
  match l with
  | [] => [(k, v)]
  | (k', v') :: t => if k' = k then (k', v) :: t else (k', v') :: aupdate t k v

/-- Dict deletion of every entry with the given key. -/
def aerase {α : Type} (l : List (String × α)) (k : String) : List (String × α) :=
  l.filter (fun p => p.1 != k)

/-- defaultdict(ProxyMetrics) subscript access: return the existing entry,
or create, append and return a zero-initialised one. -/
def defaultGet (l : List (String × ProxyMetrics)) (k : String) :
    ProxyMetrics × List (String × ProxyMetrics) :=
  match alookup l k with
  | some m => (m, l)
  | none => (ProxyMetrics.init, l ++ [(k, ProxyMetrics.init)])

/-- ProxyRotator state: the strategy string and the round-robin cursor. -/
structure ProxyRotator where
  rotation_strategy : String
  current_index : Nat
deriving DecidableEq

/-- The random draws consumed by one selection: the random.uniform value
for the weighted strategy and the random.choice index for the random one. -/
structure Rand where
  uniform : PyF
  choiceIx : Nat
deriving DecidableEq

/-- The healthy-session comprehension of ProxyRotator.select_next.  The
condition short-circuits: an expired session is skipped without touching
the metrics defaultdict; a live one reads (and possibly creates) its
metrics entry.  Sessions are carried together with their dict key so that
the later in-place mutation can be expressed functionally. -/
def healthyFilter (now : Int) :
    List (String × ProxySession) → List (String × ProxyMetrics) →
    List (String × ProxySession) × List (String × ProxyMetrics)
  | [], mets => ([], mets)
  | q :: qs, mets =>
    if q.2.is_expired now then healthyFilter now qs mets
    else
      let r1 := defaultGet mets q.2.session_id
      let r2 := healthyFilter now qs r1.2
      (if r1.1.is_healthy now then q :: r2.1 else r2.1, r2.2)

/-- Python min over a nonempty list keyed by requests_count: the first
element attaining the minimum. -/
def minByRequests (p : String × ProxySession) (ps : List (String × ProxySession)) :
    String × ProxySession :=
  ps.foldl (fun best x => if x.2.requests_count < best.2.requests_count then x else best) p

/-- The weight list of ProxyRotator._weighted_select, threading the
defaultdict accesses. -/
def computeWeights :
    List (String × ProxySession) → List (String × ProxyMetrics) →
    List PyF × List (String × ProxyMetrics)
  | [], mets => ([], mets)
  | q :: qs, mets =>
    let r1 := defaultGet mets q.2.session_id
    let w := (r1.1.success_rate.div (PyF.ofNat 100)).mul ((PyF.ofNat 1).div (PyF.ofNat (q.2.requests_count + 1)))
    let r2 := computeWeights qs r1.2
    (w :: r2.1, r2.2)

/-- The cumulative-weight scan of _weighted_select: the first session whose
running total reaches the drawn value. -/
def pickWeighted (rv : PyF) : PyF → List PyF → List (String × ProxySession) →
    Option (String × ProxySession)
  | _, [], _ => none
  | _, _ :: _, [] => none
  | acc, w :: ws, q :: qs =>
    if rv.ble (acc.add w) then some q else pickWeighted rv (acc.add w) ws qs

/-- Python negative indexing sessions[-1]: the last element. -/
def lastP {α : Type} (h : α) : List α → α
  | [] => h
  | x :: xs => lastP x xs

/-- ProxyRotator._weighted_select of the source. -/
def weightedSelect (rv : PyF) (h : String × ProxySession) (hs : List (String × ProxySession))
    (mets : List (String × ProxyMetrics)) :
    (String × ProxySession) × List (String × ProxyMetrics) :=
  let r := computeWeights (h :: hs) mets
  let total := PyF.sumL r.1
  if total.beq (PyF.ofNat 0) then (h, r.2)
  else
    match pickWeighted rv (PyF.ofNat 0) r.1 (h :: hs) with
    | some q => (q, r.2)
    | none => (lastP h hs, r.2)

/-- ProxyRotator.select_next of the source: empty pool gives none; the
healthy comprehension; fallback to the least-used session when nothing is
healthy; otherwise dispatch on the strategy string. -/
def selectNext (now : Int) (rand : Rand) (pairs : List (String × ProxySession))
    (rot : ProxyRotator) (mets : List (String × ProxyMetrics)) :
    Option (String × ProxySession) × ProxyRotator × List (String × ProxyMetrics) :=
  match pairs with
  | [] => (none, rot, mets)
  | p :: ps =>
    let hf := healthyFilter now (p :: ps) mets
    match hf.1 with
    | [] => (some (minByRequests p ps), rot, hf.2)
    | h :: hs =>
      if rot.rotation_strategy = ("round_robin") then
        ((h :: hs).get? (rot.current_index % (h :: hs).length),
          { rot with current_index := rot.current_index + 1 }, hf.2)
      else if rot.rotation_strategy = ("weighted") then
        let ws := weightedSelect rand.uniform h hs hf.2
        (some ws.1, rot, ws.2)
      else if rot.rotation_strategy = ("random") then
        ((h :: hs).get? (rand.choiceIx % (h :: hs).length), rot, hf.2)
      else (some h, rot, hf.2)

/-- ProxyManager state of proxy_manager.py.  enabled and config stand for
the shared BrightdataConfigManager's is_enabled() and get_config(). -/
structure ProxyManager where
  enabled : Bool
  config : Option BrightdataConfig
  max_sessions : Nat
  rotation_interval : Nat
  sessions : List (String × ProxySession)
  session_order : List String
  metrics : List (String × ProxyMetrics)
  rotator : ProxyRotator
  requests_since_rotation : Nat
  blacklisted_sessions : List (String × Int)
  blacklist_duration : Int
deriving DecidableEq

/-- ProxyManager.record_success of the source: a no-op unless the metrics
map already holds the session id; otherwise bump the counters, stamp the
times, and when response_time is positive push it into the window and
recompute the mean. -/
def record_success (now : Int) (sid : String) (rt : PyF) (pm : ProxyManager) : ProxyManager :=
  match alookup pm.metrics sid with
  | none => pm
  | some m =>
    let m1 := { m with requests_sent := m.requests_sent + 1,
                        successful_requests := m.successful_requests + 1,
                        last_used := some now, last_success := some now }
    let m2 :=
      if (PyF.ofNat 0).blt rt then
        let ts0 := m1.response_times ++ [rt]
        let ts := if ts0.length > 100 then ts0.drop (ts0.length - 100) else ts0
        { m1 with response_times := ts,
                  average_response_time := (PyF.sumL ts).div (PyF.ofNat ts.length) }
      else m1
    { pm with metrics := aupdate pm.metrics sid m2 }

/-- ProxyManager._blacklist_session of the source. -/
def blacklist_session (now : Int) (sid : String) (pm : ProxyManager) : ProxyManager :=
  { pm with blacklisted_sessions := aupdate pm.blacklisted_sessions sid now,
            sessions := aerase pm.sessions sid,
            session_order := pm.session_order.filter (fun x => x != sid) }

/-- ProxyManager.record_failure of the source: a no-op unless the metrics
map already holds the session id; otherwise bump the counters, stamp the
times, bump the blocked or timeout subcounter, and blacklist the session
when its success rate is below 50 on more than 10 requests. -/
def record_failure (now : Int) (sid : String) (etype : String) (pm : ProxyManager) : ProxyManager :=
  match alookup pm.metrics sid with
  | none => pm
  | some m =>
    let m1 := { m with requests_sent := m.requests_sent + 1,
                        failed_requests := m.failed_requests + 1,
                        last_used := some now, last_failure := some now }
    let m2 :=
      if etype = ("blocked") then { m1 with blocked_requests := m1.blocked_requests + 1 }
      else if etype = ("timeout") then { m1 with timeout_requests := m1.timeout_requests + 1 }
      else m1
    let pm1 := { pm with metrics := aupdate pm.metrics sid m2 }
    if m2.success_rate.blt (PyF.ofNat 50) && decide (m2.requests_sent > 10) then blacklist_session now sid pm1
    else pm1

/-- ProxyManager._cleanup_expired of the source: drop expired sessions from
the map and the order list, and drop blacklist entries strictly older than
the blacklist duration. -/
def cleanup_expired (now : Int) (pm : ProxyManager) : ProxyManager :=
  let keep := fun (p : String × ProxySession) => !(p.2.is_expired now)
  { pm with sessions := pm.sessions.filter keep,
            session_order := pm.session_order.filter
              (fun sid => match alookup pm.sessions sid with
                          | some s => !(s.is_expired now)
                          | none => true),
            blacklisted_sessions := pm.blacklisted_sessions.filter
              (fun p => !(decide (now - p.2 > pm.blacklist_duration))) }

/-- Outcome of the _ensure_sessions creation loop: normal exit, a raised
exception with the state mutated so far, or exhaustion of the supplied
candidate-id budget while the loop guard still holds. -/
inductive EnsureResult where
  | ok (pm : ProxyManager)
  | raised (e : PyErr) (pm : ProxyManager)
  | fuelOut (pm : ProxyManager)
deriving DecidableEq

/-- State carried by an EnsureResult. -/
def EnsureResult.state : EnsureResult → ProxyManager
  | .ok pm => pm
  | .raised _ pm => pm
  | .fuelOut pm => pm

/-- The while loop of ProxyManager._ensure_sessions.  Each iteration takes
the next _generate_session_id output from the candidate list; a candidate
present in the blacklist is skipped with continue; otherwise the loop calls
the BrightdataConfig constructor with the session_id keyword argument (the
exact call of the source) and, were that to succeed, would insert the new
ProxySession and bump the active count. -/
def ensureLoop (now : Int) (cfg : BrightdataConfig) :
    List String → Nat → ProxyManager → EnsureResult
  | cands, activeCount, pm =>
    if activeCount < pm.max_sessions then
      match cands with
      | [] => .fuelOut pm
      | sid :: rest =>
        if (alookup pm.blacklisted_sessions sid).isSome then
          ensureLoop now cfg rest activeCount pm
        else
          match callBrightdataConfig ensureCallKwargs cfg.username cfg.password cfg.endpoint
              cfg.port cfg.zone cfg.country with
          | .error e => .raised e pm
          | .ok sc =>
            let s : ProxySession :=
              { session_id := sid, config := sc, created_at := now, last_used := now,
                requests_count := 0, max_requests := 100, max_duration := 3600 }
            ensureLoop now cfg rest (activeCount + 1)
              { pm with sessions := pm.sessions ++ [(sid, s)],
                        session_order := pm.session_order ++ [sid] }
    else .ok pm

/-- ProxyManager._ensure_sessions of the source: return at once without a
config, else run the creation loop starting from the live-session count. -/
def ensure_sessions (now : Int) (cands : List String) (pm : ProxyManager) : EnsureResult :=
  match pm.config with
  | none => .ok pm
  | some cfg =>
    ensureLoop now cfg cands (pm.sessions.filter (fun p => !(p.2.is_expired now))).length pm

/-- The meta_data dict built by ProxyManager.get_proxy. -/
structure ProxyMetaData where
  proxy_session_id : String
  proxy_created_at : Int
  proxy_requests_count : Nat
deriving DecidableEq

/-- Outcome of ProxyManager.get_proxy: no proxy, a proxy URL with its meta
dict, a raised exception, or candidate-budget exhaustion inside
_ensure_sessions; each carries the manager state as mutated so far. -/
inductive GetProxyResult where
  | noProxy (pm : ProxyManager)
  | ok (proxyUrl : String) (md : ProxyMetaData) (pm : ProxyManager)
  | raised (e : PyErr) (pm : ProxyManager)
  | fuelOut (pm : ProxyManager)
deriving DecidableEq

/-- State carried by a GetProxyResult. -/
def GetProxyResult.state : GetProxyResult → ProxyManager
  | .noProxy pm => pm
  | .ok _ _ pm => pm
  | .raised _ pm => pm
  | .fuelOut pm => pm

/-- ProxyManager.get_proxy of the source: disabled gives none; otherwise
cleanup, ensure, filter the live sessions, select one, mark it used and
return its proxy URL with the meta dict (built after use(), so the count
is the incremented one). -/
def get_proxy (now : Int) (rand : Rand) (cands : List String) (pm : ProxyManager) :
    GetProxyResult :=
  if !pm.enabled then .noProxy pm
  else
    let pm1 := cleanup_expired now pm
    match ensure_sessions now cands pm1 with
    | .raised e pm2 => .raised e pm2
    | .fuelOut pm2 => .fuelOut pm2
    | .ok pm2 =>
      let active := pm2.sessions.filter (fun p => !(p.2.is_expired now))
      if active.isEmpty then .noProxy pm2
      else
        let r := selectNext now rand active pm2.rotator pm2.metrics
        match r.1 with
        | none => .noProxy { pm2 with rotator := r.2.1, metrics := r.2.2 }
        | some sel =>
          let used := sel.2.use now
          let pm3 := { pm2 with sessions := aupdate pm2.sessions sel.1 used,
                                rotator := r.2.1, metrics := r.2.2,
                                requests_since_rotation := pm2.requests_since_rotation + 1 }
          .ok used.proxy_url
            { proxy_session_id := used.session_id, proxy_created_at := used.created_at,
              proxy_requests_count := used.requests_count } pm3

/-- The request.meta side channel, as the closed key schema the middleware
reads and writes. -/
structure RequestMeta where
  proxy : Option String
  proxy_session_id : Option String
  proxy_created_at : Option Int
  proxy_requests_count : Option Nat
  brightdata_enabled : Bool
  request_start_time : Option Int
  brightdata_retry_count : Option Nat
  skip_brightdata_proxy : Bool
deriving DecidableEq

/-- A request.meta with none of the middleware keys set. -/
def RequestMeta.empty : RequestMeta :=
  { proxy := none, proxy_session_id := none, proxy_created_at := none,
    proxy_requests_count := none, brightdata_enabled := false,
    request_start_time := none, brightdata_retry_count := none,
    skip_brightdata_proxy := false }

/-- A scrapy request as the middleware sees it. -/
structure Request where
  url : String
  headers : List (String × String)
  meta : RequestMeta
deriving DecidableEq

/-- A scrapy response: only the status code is inspected by the core. -/
structure HttpResponse where
  status : Nat
deriving DecidableEq

/-- Substring containment, as the Python in operator on strings. -/
def strContains (hay needle : String) : Bool :=
  let h := hay.toList
  let n := needle.toList
  (List.range (h.length + 1)).any (fun i => n.isPrefixOf (h.drop i))

/-- Python str.lower on the character list (String.toLower of the library
is not used because its inner loop is not structurally recursive). -/
def lowerStr (s : String) : String :=
  String.mk (s.toList.map Char.toLower)

/-- BrightdataProxyMiddleware._should_skip_request of the source. -/
def shouldSkipRequest (req : Request) : Bool :=
  let url := lowerStr req.url
  ([("/robots.txt"), ("/favicon.ico"), ("/sitemap")].any (fun p => strContains url p))
    || req.meta.skip_brightdata_proxy

/-- The hardcoded user_agents list of BrightdataProxyMiddleware.__init__. -/
def middlewareUserAgents : List String :=
  [("Mozilla/5.0 (Windows NT 10.0; Win64; x64) AppleWebKit/537.36 (KHTML, like Gecko) Chrome/120.0.0.0 Safari/537.36"),
   ("Mozilla/5.0 (Windows NT 10.0; Win64; x64) AppleWebKit/537.36 (KHTML, like Gecko) Chrome/119.0.0.0 Safari/537.36"),
   ("Mozilla/5.0 (Macintosh; Intel Mac OS X 10_15_7) AppleWebKit/537.36 (KHTML, like Gecko) Chrome/120.0.0.0 Safari/537.36"),
   ("Mozilla/5.0 (Macintosh; Intel Mac OS X 10_15_7) AppleWebKit/605.1.15 (KHTML, like Gecko) Version/17.1 Safari/605.1.15"),
   ("Mozilla/5.0 (Windows NT 10.0; Win64; x64; rv:120.0) Gecko/20100101 Firefox/120.0")]

/-- BrightdataProxyMiddleware._get_rotated_user_agent of the source, with
Python's builtin hash passed explicitly. -/
def getRotatedUserAgent (pyHash : String → Nat) (sid : String) : String :=
  middlewareUserAgents.getD (pyHash sid % middlewareUserAgents.length) ("")

/-- BrightdataProxyMiddleware._is_successful_response of the source. -/
def isSuccessfulResponse (status : Nat) : Bool :=
  if 200 ≤ status ∧ status < 400 then true
  else if status = 404 then true
  else false

/-- BrightdataProxyMiddleware._classify_response_error of the source. -/
def classifyResponseError (status : Nat) : String :=
  if status = 403 then ("blocked")
  else if status = 429 then ("rate_limited")
  else if 500 ≤ status ∧ status < 600 then ("server_error")
  else ("http_error")

/-- BrightdataProxyMiddleware._should_retry_with_different_proxy of the
source. -/
def shouldRetryWithDifferentProxy (status : Nat) (req : Request) (maxRetries : Nat) : Bool :=
  let rc := req.meta.brightdata_retry_count.getD 0
  if rc ≥ maxRetries then false
  else [403, 429, 502, 503, 504].contains status

/-- BrightdataProxyMiddleware._retry_with_different_proxy of the source:
request.copy() with the retry count bumped and the four proxy acquisition
keys popped; the remaining meta keys survive the copy. -/
def retryWithDifferentProxy (req : Request) : Request :=
  let rc := req.meta.brightdata_retry_count.getD 0 + 1
  { req with meta := { req.meta with brightdata_retry_count := some rc,
                                        proxy := none,
                                        proxy_session_id := none,
                                        proxy_created_at := none,
                                        proxy_requests_count := none } }

/-- BrightdataProxyMiddleware state: the enabled flag, the max_retries
setting and the owned ProxyManager. -/
structure BDMiddleware where
  enabled : Bool
  max_retries : Nat
  pm : ProxyManager
deriving DecidableEq

/-- Outcome of process_request together with the middleware and request
after the call (the source always returns None, so the interesting payload
is the mutation and the possible raise). -/
inductive PReqOutcome where
  | ok
  | raised (e : PyErr)
  | fuelOut
deriving DecidableEq

/-- Result record of process_request. -/
structure PRRes where
  mw : BDMiddleware
  req : Request
  outcome : PReqOutcome

/-- BrightdataProxyMiddleware.process_request of the source: bail out when
disabled, when a proxy is already set, or on a skipped URL; else acquire a
proxy (propagating anything _ensure_sessions raises), attach the proxy
meta keys, and set the session-coordinated User-Agent when the caller
supplied none. -/
def process_request (pyHash : String → Nat) (now : Int) (rand : Rand) (cands : List String)
    (mw : BDMiddleware) (req : Request) : PRRes :=
  if !mw.enabled then ⟨mw, req, .ok⟩
  else if (req.meta.proxy).isSome then ⟨mw, req, .ok⟩
  else if shouldSkipRequest req then ⟨mw, req, .ok⟩
  else
    match get_proxy now rand cands mw.pm with
    | .raised e pm2 => ⟨{ mw with pm := pm2 }, req, .raised e⟩
    | .fuelOut pm2 => ⟨{ mw with pm := pm2 }, req, .fuelOut⟩
    | .noProxy pm2 => ⟨{ mw with pm := pm2 }, req, .ok⟩
    | .ok url md pm2 =>
      let meta1 := { req.meta with proxy := some url,
                                     proxy_session_id := some md.proxy_session_id,
                                     proxy_created_at := some md.proxy_created_at,
                                     proxy_requests_count := some md.proxy_requests_count,
                                     brightdata_enabled := true,
                                     request_start_time := some now }
      let req1 := { req with meta := meta1 }
      let req2 :=
        if (alookup req1.headers ("User-Agent")).isSome then req1
        else { req1 with headers := req1.headers ++
                 [(("User-Agent"), getRotatedUserAgent pyHash md.proxy_session_id)] }
      ⟨{ mw with pm := pm2 }, req2, .ok⟩

/-- Outcome of process_response: pass the response upward, emit a retry
directive, or raise (the debug log lines slice session_id, which raises
TypeError when the meta key is absent and session_id is None). -/
inductive RespOutcome where
  | response (r : HttpResponse)
  | retry (r : Request)
  | raised (e : PyErr)
deriving DecidableEq

/-- record_success as called from process_response, where session_id may be
None: None is never a key of the metrics dict, so the call is a no-op. -/
def recordSuccessOpt (now : Int) (sid : Option String) (rt : PyF) (pm : ProxyManager) :
    ProxyManager :=
  match sid with
  | none => pm
  | some s => record_success now s rt pm

/-- record_failure as called from process_response, where session_id may be
None: None is never a key of the metrics dict, so the call is a no-op. -/
def recordFailureOpt (now : Int) (sid : Option String) (etype : String) (pm : ProxyManager) :
    ProxyManager :=
  match sid with
  | none => pm
  | some s => record_failure now s etype pm

/-- BrightdataProxyMiddleware.process_response of the source: untouched
unless the request carries brightdata_enabled; classify, record into the
manager, and on a retryable failure status below the retry budget emit the
retry directive instead of the response.  The log f-strings slice
session_id, raising TypeError when it is None. -/
def process_response (now : Int) (mw : BDMiddleware) (req : Request) (resp : HttpResponse) :
    BDMiddleware × RespOutcome :=
  if !req.meta.brightdata_enabled then (mw, .response resp)
  else
    let sid := req.meta.proxy_session_id
    let start := req.meta.request_start_time.getD 0
    let rt : PyF := if start > 0 then PyF.ofInt (now - start) else PyF.ofNat 0
    if isSuccessfulResponse resp.status then
      let pm2 := recordSuccessOpt now sid rt mw.pm
      match sid with
      | none => ({ mw with pm := pm2 }, .raised (PyErr.typeError ("NoneType is not subscriptable")))
      | some _ => ({ mw with pm := pm2 }, .response resp)
    else
      let et := classifyResponseError resp.status
      let pm2 := recordFailureOpt now sid et mw.pm
      match sid with
      | none => ({ mw with pm := pm2 }, .raised (PyErr.typeError ("NoneType is not subscriptable")))
      | some _ =>
        if shouldRetryWithDifferentProxy resp.status req mw.max_retries then
          ({ mw with pm := pm2 }, .retry (retryWithDifferentProxy req))
        else ({ mw with pm := pm2 }, .response resp)

/-- The manager operations whose effect on the registry state the
invariants quantify over; each carries the explicit random or candidate
inputs it consumes. -/
inductive MgrOp where
  | cleanup
  | ensure (cands : List String)
  | recSuccess (sid : String) (rt : PyF)
  | recFailure (sid : String) (etype : String)
  | blacklist (sid : String)
  | acquire (rand : Rand) (cands : List String)

/-- The manager state after an operation, including the state as mutated so
far when the operation raises. -/
def applyOp (now : Int) (op : MgrOp) (pm : ProxyManager) : ProxyManager :=
  match op with
  | .cleanup => cleanup_expired now pm
  | .ensure cands => (ensure_sessions now cands pm).state
  | .recSuccess sid rt => record_success now sid rt pm
  | .recFailure sid et => record_failure now sid et pm
  | .blacklist sid => blacklist_session now sid pm
  | .acquire rand cands => (get_proxy now rand cands pm).state

/-- Invariant I2 as an executable check: no session id of the active map is
simultaneously a key of the blacklist. -/
def noOverlap (pm : ProxyManager) : Bool :=
  pm.sessions.all (fun p => !(alookup pm.blacklisted_sessions p.1).isSome)

/-- The spec reading of session expiry: at least max_duration seconds of
age, or the request cap reached. -/
def specIsExpired (now : Int) (s : ProxySession) : Prop :=
  now - s.created_at ≥ (s.max_duration : Int) ∨ s.requests_count ≥ s.max_requests

/-- The spec reading of metrics health: success rate at least 80 and
either a success within the last five minutes or fewer than five requests
sent. -/
def specIsHealthy (now : Int) (m : ProxyMetrics) : Prop :=
  80 ≤ (m.success_rate).val ∧
    ((∃ t, m.last_success = some t ∧ now - t < 300) ∨ m.requests_sent < 5)

/-- The spec reading of the failure subkind taxonomy. -/
def specSubkind (status : Nat) : String :=
  if status = 403 then ("blocked")
  else if status = 429 then ("rate_limited")
  else if 500 ≤ status ∧ status ≤ 599 then ("server_error")
  else ("http_error")

/-- An _ensure_sessions run that exhausts every candidate budget: for any
number of generator outputs supplied, the creation loop is still running
when they run out, and the state is untouched. -/
def divergesFrom (pm : ProxyManager) (now : Int) (sid : String) : Prop :=
  ∀ n : Nat, ensure_sessions now (List.replicate n sid) pm = EnsureResult.fuelOut pm

/-- A valid config as the enabled manager holds it. -/
def cfg0 : BrightdataConfig :=
  { username := ("brd-customer"), password := ("pw"), endpoint := ("brd.superproxy.io"),
    port := 33335, zone := ("residential"), country := ("DE") }

/-- A live session whose id is scraper-aaaa, fresh at instant 0. -/
def sess0 : ProxySession :=
  { session_id := ("scraper-aaaa"), config := cfg0, created_at := 0, last_used := 0,
    requests_count := 0, max_requests := 100, max_duration := 3600 }

/-- An enabled manager holding the single live session scraper-aaaa with a
pool capacity of one (so the creation loop has nothing to do). -/
def pmOne : ProxyManager :=
  { enabled := true, config := some cfg0, max_sessions := 1, rotation_interval := 10,
    sessions := [(("scraper-aaaa"), sess0)], session_order := [("scraper-aaaa")],
    metrics := [], rotator := { rotation_strategy := ("weighted"), current_index := 0 },
    requests_since_rotation := 0, blacklisted_sessions := [], blacklist_duration := 1800 }

/-- A fresh enabled manager with an empty pool and the default capacity of
five, as built right after construction. -/
def pmFresh : ProxyManager :=
  { enabled := true, config := some cfg0, max_sessions := 5, rotation_interval := 10,
    sessions := [], session_order := [], metrics := [],
    rotator := { rotation_strategy := ("weighted"), current_index := 0 },
    requests_since_rotation := 0, blacklisted_sessions := [], blacklist_duration := 1800 }

/-- An enabled manager with room for one session whose only candidate ids
collide with the blacklist. -/
def pmBlack : ProxyManager :=
  { pmFresh with max_sessions := 1, blacklisted_sessions := [(("scraper-dead"), 0)] }

/-- A fixed zero draw for the selection randomness. -/
def rand0 : Rand := { uniform := PyF.ofNat 0, choiceIx := 0 }

/-- A deterministic stand-in for the per-process Python hash. -/
def pyHash0 : String → Nat := fun _ => 0

/-- The middleware over the fresh manager, as built when USE_PROXIES is
set and the credentials are present. -/
def mwFresh : BDMiddleware := { enabled := true, max_retries := 3, pm := pmFresh }

/-- The middleware over the single-session manager. -/
def mwOne : BDMiddleware := { enabled := true, max_retries := 3, pm := pmOne }

/-- A plain page request with no middleware keys set. -/
def reqPlain : Request :=
  { url := ("https://www.edeka24.de/product"), headers := [], meta := RequestMeta.empty }

/-- A request as it left a successful acquisition against scraper-aaaa. -/
def reqProxied : Request :=
  { url := ("https://www.edeka24.de/product"),
    headers := [(("User-Agent"), middlewareUserAgents.getD 0 (""))],
    meta := { RequestMeta.empty with
                proxy := some sess0.proxy_url,
                proxy_session_id := some ("scraper-aaaa"),
                proxy_created_at := some 0,
                proxy_requests_count := some 1,
                brightdata_enabled := true,
                request_start_time := some 10 } }

/-- The single-session manager after that acquisition: the session used
once and its metrics entry created by the selection pass. -/
def pmOneUsed : ProxyManager :=
  { pmOne with
      sessions := [(("scraper-aaaa"), { sess0 with last_used := 10, requests_count := 1 })],
      metrics := [(("scraper-aaaa"), ProxyMetrics.init)],
      requests_since_rotation := 1 }

/-- The middleware over that post-acquisition manager. -/
def mwOneUsed : BDMiddleware := { enabled := true, max_retries := 3, pm := pmOneUsed }

/-- A 403 response. -/
def resp403 : HttpResponse := { status := 403 }

/-- A 200 response. -/
def resp200 : HttpResponse := { status := 200 }

/-- A manager holding one live session, one blacklisted id stamped at
instant 100, and a metrics entry for a retired session. -/
def pmW8 : ProxyManager :=
  { pmOne with blacklisted_sessions := [(("scraper-dead"), 100)],
               metrics := [(("scraper-xxxx"), ProxyMetrics.init)] }

/-- A metrics record with exactly one success, recorded at instant 0. -/
def mStale : ProxyMetrics :=
  { ProxyMetrics.init with requests_sent := 1, successful_requests := 1, last_success := some 0 }

/-! Association-list and fraction lemmas used by the claim proofs. -/

/-- Updating a key makes it look up to the new value. -/
theorem alookup_aupdate_self {α : Type} (l : List (String × α)) (k : String) (v : α) :
    alookup (aupdate l k v) k = some v := by
  induction l with
  | nil => simp [aupdate, alookup]
  | cons p t ih =>
    obtain ⟨a, b⟩ := p
    by_cases h : a = k
    · simp [aupdate, alookup, h]
    · simpa [aupdate, alookup, h] using ih

/-- Updating one key leaves the lookup of any other key unchanged. -/
theorem alookup_aupdate_ne {α : Type} (l : List (String × α)) (k k' : String) (v : α)
    (h : k' ≠ k) : alookup (aupdate l k v) k' = alookup l k' := by
  induction l with
  | nil =>
    have hk : k ≠ k' := fun h' => h h'.symm
    simp [aupdate, alookup, hk]
  | cons p t ih =>
    obtain ⟨a, b⟩ := p
    have hk : ¬ k = k' := fun h' => h h'.symm
    by_cases ha : a = k
    · simp [aupdate, alookup, ha, hk]
    · by_cases ha' : a = k'
      · simp [aupdate, alookup, ha, ha', h]
      · simpa [aupdate, alookup, ha, ha'] using ih

/-- Any entry of an update was an entry before, or carries the updated key. -/
theorem mem_aupdate {α : Type} (l : List (String × α)) (k : String) (v : α)
    (q : String × α) (h : q ∈ aupdate l k v) : q ∈ l ∨ q.1 = k := by
  induction l with
  | nil =>
    simp only [aupdate, List.mem_singleton] at h
    right; rw [h]
  | cons p t ih =>
    obtain ⟨a, b⟩ := p
    by_cases ha : a = k
    · simp only [aupdate, if_pos ha, List.mem_cons] at h
      rcases h with h | h
      · right; rw [h, ha]
      · left; exact List.mem_cons_of_mem _ h
    · simp only [aupdate, if_neg ha, List.mem_cons] at h
      rcases h with h | h
      · left; rw [h]; exact List.mem_cons_self _ _
      · rcases ih h with h' | h'
        · left; exact List.mem_cons_of_mem _ h'
        · right; exact h'

/-- A lookup hit names an entry of the list. -/
theorem alookup_some_mem {α : Type} (l : List (String × α)) (k : String) (v : α)
    (h : alookup l k = some v) : (k, v) ∈ l := by
  induction l with
  | nil => simp [alookup] at h
  | cons p t ih =>
    obtain ⟨a, b⟩ := p
    by_cases ha : a = k
    · simp only [alookup, if_pos ha, Option.some.injEq] at h
      rw [← ha, ← h]
      exact List.mem_cons_self _ _
    · simp only [alookup, if_neg ha] at h
      exact List.mem_cons_of_mem _ (ih h)

/-- An entry of the list makes its key look up to something. -/
theorem mem_alookup_isSome {α : Type} (l : List (String × α)) (k : String) (v : α)
    (h : (k, v) ∈ l) : (alookup l k).isSome = true := by
  induction l with
  | nil => simp at h
  | cons p t ih =>
    obtain ⟨a, b⟩ := p
    by_cases ha : a = k
    · simp [alookup, ha]
    · rcases List.mem_cons.mp h with h' | h'
      · exact absurd (congrArg Prod.fst h').symm ha
      · simpa [alookup, ha] using ih h'

/-- A missed key stays missed after filtering. -/
theorem alookup_none_filter {α : Type} (p : String × α → Bool) (l : List (String × α))
    (k : String) (h : alookup l k = none) : alookup (l.filter p) k = none := by
  induction l with
  | nil => simp [alookup]
  | cons q t ih =>
    obtain ⟨a, b⟩ := q
    by_cases ha : a = k
    · simp [alookup, ha] at h
    · simp only [alookup, if_neg ha] at h
      cases hp : p (a, b) with
      | true => simp [List.filter_cons, hp, alookup, ha, ih h]
      | false => simp [List.filter_cons, hp, ih h]

/-- A lookup hit whose entry satisfies the filter survives the filter with
the same value. -/
theorem alookup_filter_of_holds {α : Type} (p : String × α → Bool) (l : List (String × α))
    (k : String) (v : α) (h : alookup l k = some v) (hp : p (k, v) = true) :
    alookup (l.filter p) k = some v := by
  induction l with
  | nil => simp [alookup] at h
  | cons q t ih =>
    obtain ⟨a, b⟩ := q
    by_cases ha : a = k
    · simp only [alookup, if_pos ha, Option.some.injEq] at h
      rw [ha, h]
      simp [List.filter_cons, hp, alookup]
    · simp only [alookup, if_neg ha] at h
      cases hq : p (a, b) with
      | true => simp [List.filter_cons, hq, alookup, ha, ih h]
      | false => simp [List.filter_cons, hq, ih h]

/-- Lookup of an erased key misses. -/
theorem alookup_aerase_self {α : Type} (l : List (String × α)) (k : String) :
    alookup (aerase l k) k = none := by
  induction l with
  | nil => simp [aerase, alookup]
  | cons q t ih =>
    obtain ⟨a, b⟩ := q
    by_cases ha : a = k
    · simpa [aerase, List.filter_cons, ha] using ih
    · simpa [aerase, List.filter_cons, ha, alookup] using ih

/-- Erasing one key leaves other lookups unchanged. -/
theorem alookup_aerase_ne {α : Type} (l : List (String × α)) (k k' : String) (h : k' ≠ k) :
    alookup (aerase l k) k' = alookup l k' := by
  induction l with
  | nil => simp [aerase, alookup]
  | cons q t ih =>
    obtain ⟨a, b⟩ := q
    have hk : ¬ k = k' := fun h' => h h'.symm
    by_cases ha : a = k
    · simpa [aerase, List.filter_cons, ha, alookup, hk] using ih
    · by_cases ha' : a = k'
      · simp [aerase, List.filter_cons, ha, alookup, ha', h]
      · simpa [aerase, List.filter_cons, ha, alookup, ha'] using ih

/-- Lookup distributes over append: the left list wins when it hits. -/
theorem alookup_append {α : Type} (l l' : List (String × α)) (k : String) :
    alookup (l ++ l') k = match alookup l k with
                          | some v => some v
                          | none => alookup l' k := by
  induction l with
  | nil => simp [alookup]
  | cons q t ih =>
    obtain ⟨a, b⟩ := q
    by_cases ha : a = k
    · simp [alookup, ha]
    · simpa [alookup, ha] using ih

/-- The strict fraction comparison agrees with the denoted rationals. -/
theorem PyF.blt_iff_val (a b : PyF) : a.blt b = true ↔ a.val < b.val := by
  unfold PyF.blt PyF.val
  rw [decide_eq_true_eq,
    div_lt_div_iff₀ (by exact_mod_cast a.den_pos) (by exact_mod_cast b.den_pos)]
  constructor
  · intro h; exact_mod_cast h
  · intro h; exact_mod_cast h

/-- The denoted value of an integer-literal fraction. -/
theorem PyF.val_ofNat (n : Nat) : (PyF.ofNat n).val = (n : ℚ) := by
  unfold PyF.ofNat PyF.val
  simp

/-- The denoted value of the success rate of the source agrees with the
spec formula: 100 on zero requests, else successful over sent times 100. -/
theorem success_rate_val (m : ProxyMetrics) :
    (ProxyMetrics.success_rate m).val =
      if m.requests_sent = 0 then (100 : ℚ)
      else ((m.successful_requests : ℚ) / (m.requests_sent : ℚ)) * 100 := by
  unfold ProxyMetrics.success_rate
  split
  · rw [PyF.val_ofNat]; norm_num
  · rename_i h
    have hpos : (0 : Int) < (m.requests_sent : Int) := by
      exact_mod_cast Nat.pos_of_ne_zero h
    have hne : (m.requests_sent : ℚ) ≠ 0 := Nat.cast_ne_zero.mpr h
    unfold PyF.div PyF.mul PyF.ofNat PyF.val
    rw [dif_pos hpos]
    push_cast
    field_simp

/-! The claims C1, C3, C4, C7, C10. -/

/-- C1: the spec says the hooks never raise, returning the response, a
retry directive or nothing.  The code disagrees: on an enabled middleware
with an empty pool, process_request reaches _ensure_sessions, which calls
the BrightdataConfig dataclass constructor with the keyword argument
session_id that the dataclass does not declare, so the hook raises
TypeError on this concrete (and in fact every session-creating) input. -/
theorem c1_process_request_raises :
    (process_request pyHash0 0 rand0 [("scraper-0001")] mwFresh reqPlain).outcome =
      PReqOutcome.raised (PyErr.typeError ("unexpected keyword argument session_id")) := by
  decide

/-- C3 counterexample: a session created at instant 0 with the default
caps, observed at instant 90000 (25 hours of age), is expired under the
claim (age at least max_duration) but ProxySession.is_expired of the code
returns false, because the code reads the timedelta seconds component
(90000 mod 86400 = 3600) and compares it with strict greater-than. -/
theorem c3_expiry_counterexample :
    specIsExpired 90000 sess0 ∧ ProxySession.is_expired 90000 sess0 = false := by
  constructor
  · left; decide
  · decide

/-- C3 amended: is_expired holds if and only if the seconds component of
now minus created_at (the total seconds modulo 86400) strictly exceeds
max_duration, or requests_count has reached max_requests. -/
theorem c3_is_expired_amended (now : Int) (s : ProxySession) :
    ProxySession.is_expired now s = true ↔
      ((now - s.created_at).emod 86400 > (s.max_duration : Int) ∨
        s.requests_count ≥ s.max_requests) := by
  simp [ProxySession.is_expired]

/-- C4 counterexample: a metrics record with one successful request whose
last success lies ten minutes in the past is healthy under the claim
(success rate 100, requests_sent below 5) but ProxyMetrics.is_healthy of
the code returns false: once last_success is set, the code only accepts a
success within the last five minutes and never falls back to the
requests_sent test. -/
theorem c4_health_counterexample :
    specIsHealthy 600 mStale ∧ ProxyMetrics.is_healthy 600 mStale = false := by
  refine ⟨⟨?_, Or.inr (by decide)⟩, by decide⟩
  rw [success_rate_val]
  norm_num [mStale, ProxyMetrics.init]

/-- C4 amended: success_rate denotes 100 when requests_sent is zero and
otherwise successful over sent times 100; is_healthy holds if and only if
success_rate is at least 80 and either last_success is set and within the
last five minutes, or last_success is unset and requests_sent is below
five. -/
theorem c4_metrics_amended (now : Int) (m : ProxyMetrics) :
    ((ProxyMetrics.success_rate m).val =
      if m.requests_sent = 0 then (100 : ℚ)
      else ((m.successful_requests : ℚ) / (m.requests_sent : ℚ)) * 100) ∧
    (ProxyMetrics.is_healthy now m = true ↔
      (80 ≤ (ProxyMetrics.success_rate m).val ∧
        ((∃ t, m.last_success = some t ∧ now - t < 300) ∨
          (m.last_success = none ∧ m.requests_sent < 5)))) := by
  refine ⟨success_rate_val m, ?_⟩
  unfold ProxyMetrics.is_healthy
  by_cases hr : (ProxyMetrics.success_rate m).blt (PyF.ofNat 80) = true
  · rw [if_pos hr]
    have hlt : (ProxyMetrics.success_rate m).val < 80 := by
      have h := (PyF.blt_iff_val _ _).mp hr
      rw [PyF.val_ofNat] at h
      exact_mod_cast h
    simp only [Bool.false_eq_true, false_iff]
    exact fun h => absurd h.1 (not_le.mpr hlt)
  · rw [if_neg hr]
    have h80 : (80 : ℚ) ≤ (ProxyMetrics.success_rate m).val := by
      have hnot : ¬ (ProxyMetrics.success_rate m).val < (PyF.ofNat 80).val :=
        fun hlt => hr ((PyF.blt_iff_val _ _).mpr hlt)
      rw [PyF.val_ofNat] at hnot
      push_cast at hnot
      exact not_lt.mp hnot
    cases hls : m.last_success with
    | none => simp [hls, h80]
    | some t => simp [hls, h80]

/-- C7: a response counts as a success exactly when its status is in
[200, 400) or is 404; and the failure-subkind classification of the code
agrees with the taxonomy of the spec (403 blocked, 429 rate_limited, 500
to 599 server_error, anything else http_error) on every status. -/
theorem c7_response_classification (status : Nat) :
    (isSuccessfulResponse status = true ↔ ((200 ≤ status ∧ status < 400) ∨ status = 404)) ∧
    classifyResponseError status = specSubkind status := by
  constructor
  · unfold isSuccessfulResponse
    split_ifs with h1 h2 <;> simp_all
  · unfold classifyResponseError specSubkind
    split_ifs <;> first | rfl | omega

/-- C10: a record_success or record_failure against a session id that has
no entry in the metrics map leaves the whole manager state unchanged: the
membership test does not populate the defaultdict, no counter moves and no
blacklisting happens. -/
theorem c10_unknown_session_noop (now : Int) (sid : String) (rt : PyF) (etype : String)
    (pm : ProxyManager) (h : alookup pm.metrics sid = none) :
    record_success now sid rt pm = pm ∧ record_failure now sid etype pm = pm := by
  constructor
  · unfold record_success
    rw [h]
  · unfold record_failure
    rw [h]

/-- C10 witness at a concrete manager whose metrics map misses the id. -/
theorem c10_unknown_session_noop_witness :
    alookup pmOne.metrics ("scraper-zzzz") = none ∧
      record_success 5 ("scraper-zzzz") (PyF.ofNat 1) pmOne = pmOne ∧
      record_failure 5 ("scraper-zzzz") ("blocked") pmOne = pmOne := by
  refine ⟨by decide, ?_, ?_⟩
  · exact (c10_unknown_session_noop 5 ("scraper-zzzz") (PyF.ofNat 1) ("blocked") pmOne (by decide)).1
  · exact (c10_unknown_session_noop 5 ("scraper-zzzz") (PyF.ofNat 1) ("blocked") pmOne (by decide)).2

/-! Recording lemmas and the claims C6, C9, C2. -/

/-- record_success on a present id bumps requests_sent by one. -/
theorem record_success_sent (now : Int) (s : String) (rt : PyF) (pm : ProxyManager)
    (m : ProxyMetrics) (hm : alookup pm.metrics s = some m) :
    (alookup (record_success now s rt pm).metrics s).map (fun x => x.requests_sent) =
      some (m.requests_sent + 1) := by
  unfold record_success
  rw [hm]
  dsimp only
  rw [alookup_aupdate_self]
  split <;> rfl

/-- record_failure on a present id bumps requests_sent by one (whether or
not it also blacklists the session). -/
theorem record_failure_sent (now : Int) (s : String) (et : String) (pm : ProxyManager)
    (m : ProxyMetrics) (hm : alookup pm.metrics s = some m) :
    (alookup (record_failure now s et pm).metrics s).map (fun x => x.requests_sent) =
      some (m.requests_sent + 1) := by
  unfold record_failure
  rw [hm]
  dsimp only
  by_cases h1 : et = ("blocked")
  · rw [if_pos h1]
    split <;> simp [blacklist_session, alookup_aupdate_self]
  · rw [if_neg h1]
    by_cases h2 : et = ("timeout")
    · rw [if_pos h2]
      split <;> simp [blacklist_session, alookup_aupdate_self]
    · rw [if_neg h2]
      split <;> simp [blacklist_session, alookup_aupdate_self]

/-- process_response on a proxied request with a present metrics entry
records exactly one more request, on both the success and failure paths. -/
theorem process_response_sent (now : Int) (mw : BDMiddleware) (req : Request)
    (resp : HttpResponse) (s : String) (m : ProxyMetrics)
    (hen : req.meta.brightdata_enabled = true)
    (hsid : req.meta.proxy_session_id = some s)
    (hm : alookup mw.pm.metrics s = some m) :
    (alookup (process_response now mw req resp).1.pm.metrics s).map
        (fun x => x.requests_sent) = some (m.requests_sent + 1) := by
  unfold process_response
  rw [hen, hsid]
  simp only [Bool.not_true]
  rw [if_neg (by simp)]
  split
  · exact record_success_sent now s _ mw.pm m hm
  · split
    · exact record_failure_sent now s _ mw.pm m hm
    · exact record_failure_sent now s _ mw.pm m hm

/-- C6 counterexample: calling process_response twice with the same
request and 200 response against a concrete manager does not leave the
metrics as a single call does: the outcome is recorded twice. -/
theorem c6_double_record_counterexample :
    ¬ ((process_response 20 (process_response 20 mwOneUsed reqProxied resp200).1 reqProxied
          resp200).1.pm.metrics =
        (process_response 20 mwOneUsed reqProxied resp200).1.pm.metrics) := by
  decide

/-- C6 amended: process_response does not clear brightdata_enabled, so a
second call with the same proxied request and response records the outcome
again: after one call the session's requests_sent is one more than before,
and after two calls two more. -/
theorem c6_second_call_records_again (now : Int) (mw : BDMiddleware) (req : Request)
    (resp : HttpResponse) (s : String) (m : ProxyMetrics)
    (hen : req.meta.brightdata_enabled = true)
    (hsid : req.meta.proxy_session_id = some s)
    (hm : alookup mw.pm.metrics s = some m) :
    (alookup (process_response now mw req resp).1.pm.metrics s).map
        (fun x => x.requests_sent) = some (m.requests_sent + 1) ∧
    (alookup (process_response now (process_response now mw req resp).1 req resp).1.pm.metrics
        s).map (fun x => x.requests_sent) = some (m.requests_sent + 2) := by
  have h1 := process_response_sent now mw req resp s m hen hsid hm
  refine ⟨h1, ?_⟩
  obtain ⟨m1, hm1, hs1⟩ := Option.map_eq_some'.mp h1
  have h2 := process_response_sent now _ req resp s m1 hen hsid hm1
  rw [h2, hs1]

/-- C6 witness: the double-recording theorem applied to the concrete
single-session manager after one acquisition. -/
theorem c6_second_call_records_again_witness :
    (alookup (process_response 20 mwOneUsed reqProxied resp200).1.pm.metrics
        ("scraper-aaaa")).map (fun x => x.requests_sent) =
      some (ProxyMetrics.init.requests_sent + 1) ∧
    (alookup (process_response 20 (process_response 20 mwOneUsed reqProxied resp200).1 reqProxied
        resp200).1.pm.metrics ("scraper-aaaa")).map (fun x => x.requests_sent) =
      some (ProxyMetrics.init.requests_sent + 2) := by
  exact c6_second_call_records_again 20 mwOneUsed reqProxied resp200 ("scraper-aaaa")
    ProxyMetrics.init (by decide) (by decide) (by decide)

/-- The creation loop consumes every candidate that collides with the
blacklist and keeps running: it never bails out. -/
theorem ensureLoop_all_black (now : Int) (cfg : BrightdataConfig) (cands : List String) :
    ∀ (ac : Nat) (pm : ProxyManager), ac < pm.max_sessions →
      (∀ c ∈ cands, (alookup pm.blacklisted_sessions c).isSome = true) →
      ensureLoop now cfg cands ac pm = EnsureResult.fuelOut pm := by
  induction cands with
  | nil =>
    intro ac pm h _
    unfold ensureLoop
    rw [if_pos h]
  | cons c rest ih =>
    intro ac pm h hb
    unfold ensureLoop
    rw [if_pos h]
    dsimp only
    have hc : (alookup pm.blacklisted_sessions c).isSome = true :=
      hb c (List.mem_cons_self _ _)
    rw [if_pos hc]
    exact ih ac pm h (fun x hx => hb x (List.mem_cons_of_mem _ hx))

/-- C9 counterexample: from a manager with room for a session whose
blacklist holds the only id the generator keeps producing, _ensure_sessions
exhausts every finite candidate budget while the loop guard still holds:
the code never bails after a bounded number of retries. -/
theorem c9_creation_loop_diverges : divergesFrom pmBlack 5 ("scraper-dead") := by
  intro n
  unfold ensure_sessions
  show ensureLoop 5 cfg0 _ _ _ = _
  refine ensureLoop_all_black 5 cfg0 (List.replicate n ("scraper-dead")) 0 pmBlack (by decide) ?_
  intro c hc
  rw [List.eq_of_mem_replicate hc]
  decide

/-- C9 amended: the creation loop skips a blacklisted candidate with
continue and retries without any bound: whenever the pool is below
capacity, a config is present and every generated candidate id collides
with the blacklist, _ensure_sessions runs out of any finite candidate
budget with the state untouched, instead of bailing out. -/
theorem c9_ensure_never_bails (now : Int) (cands : List String) (pm : ProxyManager)
    (cfg : BrightdataConfig) (hc : pm.config = some cfg)
    (ha : (pm.sessions.filter (fun p => !(p.2.is_expired now))).length < pm.max_sessions)
    (hb : ∀ c ∈ cands, (alookup pm.blacklisted_sessions c).isSome = true) :
    ensure_sessions now cands pm = EnsureResult.fuelOut pm := by
  unfold ensure_sessions
  rw [hc]
  exact ensureLoop_all_black now cfg cands _ pm ha hb

/-- C9 witness: the no-bail theorem applied to a concrete manager and a
concrete two-candidate budget. -/
theorem c9_ensure_never_bails_witness :
    ensure_sessions 5 [("scraper-dead"), ("scraper-dead")] pmBlack =
      EnsureResult.fuelOut pmBlack := by
  exact c9_ensure_never_bails 5 [("scraper-dead"), ("scraper-dead")] pmBlack cfg0 rfl
    (by decide) (by decide)

/-- C2 counterexample: with a single-session manager, a 403 response
produces a retry directive that still carries brightdata_enabled (only the
four acquisition keys are cleared), and the next process_request pass
acquires the very same session id scraper-aaaa that produced the 403: the
code does not prevent reuse of the offending session. -/
theorem c2_reuse_counterexample :
    (process_response 20 mwOneUsed reqProxied resp403).2 =
      RespOutcome.retry (retryWithDifferentProxy reqProxied) ∧
    (retryWithDifferentProxy reqProxied).meta.brightdata_enabled = true ∧
    reqProxied.meta.proxy_session_id = some ("scraper-aaaa") ∧
    (process_request pyHash0 30 rand0 [("scraper-bbbb")]
        (process_response 20 mwOneUsed reqProxied resp403).1
        (retryWithDifferentProxy reqProxied)).req.meta.proxy_session_id =
      some ("scraper-aaaa") := by
  refine ⟨by decide, by decide, by decide, by decide⟩

/-- C2 amended: on a proxied request whose response status is one of 403,
429, 502, 503, 504 and whose retry count is below max_retries,
process_response emits a retry directive instead of the response; the
directive is a copy of the request with brightdata_retry_count
incremented and the keys proxy, proxy_session_id, proxy_created_at and
proxy_requests_count cleared, while brightdata_enabled and
request_start_time are retained (nothing prevents the next acquisition
from selecting the offending session again). -/
theorem c2_retry_directive (now : Int) (mw : BDMiddleware) (req : Request)
    (resp : HttpResponse) (s : String)
    (hen : req.meta.brightdata_enabled = true)
    (hsid : req.meta.proxy_session_id = some s)
    (hst : resp.status ∈ [403, 429, 502, 503, 504])
    (hrc : req.meta.brightdata_retry_count.getD 0 < mw.max_retries) :
    (process_response now mw req resp).2 = RespOutcome.retry (retryWithDifferentProxy req) ∧
    (retryWithDifferentProxy req).meta.brightdata_retry_count =
      some (req.meta.brightdata_retry_count.getD 0 + 1) ∧
    (retryWithDifferentProxy req).meta.proxy = none ∧
    (retryWithDifferentProxy req).meta.proxy_session_id = none ∧
    (retryWithDifferentProxy req).meta.proxy_created_at = none ∧
    (retryWithDifferentProxy req).meta.proxy_requests_count = none ∧
    (retryWithDifferentProxy req).meta.brightdata_enabled = true ∧
    (retryWithDifferentProxy req).meta.request_start_time = req.meta.request_start_time ∧
    (retryWithDifferentProxy req).url = req.url ∧
    (retryWithDifferentProxy req).headers = req.headers := by
  have hsucc : isSuccessfulResponse resp.status = false := by
    simp only [List.mem_cons, List.not_mem_nil, or_false] at hst
    rcases hst with h | h | h | h | h <;> rw [h] <;> decide
  have hretry : shouldRetryWithDifferentProxy resp.status req mw.max_retries = true := by
    unfold shouldRetryWithDifferentProxy
    dsimp only
    rw [if_neg (not_le.mpr hrc)]
    simp only [List.mem_cons, List.not_mem_nil, or_false] at hst
    rcases hst with h | h | h | h | h <;> rw [h] <;> decide
  refine ⟨?_, rfl, rfl, rfl, rfl, rfl, by simp [retryWithDifferentProxy, hen], rfl, rfl, rfl⟩
  unfold process_response
  rw [hen, hsid]
  simp only [Bool.not_true]
  rw [if_neg (by simp), hsucc]
  rw [if_neg (by simp), hretry]
  rw [if_pos rfl]

/-- C2 witness: the retry-directive theorem applied to the concrete 403
scenario against the single-session manager. -/
theorem c2_retry_directive_witness :
    reqProxied.meta.brightdata_enabled = true ∧
    (process_response 20 mwOneUsed reqProxied resp403).2 =
      RespOutcome.retry (retryWithDifferentProxy reqProxied) := by
  refine ⟨by decide, ?_⟩
  exact (c2_retry_directive 20 mwOneUsed reqProxied resp403 ("scraper-aaaa") (by decide)
    (by decide) (by decide) (by decide)).1

/-! The claim C5. -/

/-- When process_request attaches a proxy session to a request that had no
proxy, no session id and no caller-supplied User-Agent, the request leaves
the hook with exactly the session-coordinated User-Agent appended and no
other header touched. -/
theorem process_request_attach (pyHash : String → Nat) (now : Int) (rand : Rand)
    (cands : List String) (mw : BDMiddleware) (req : Request) (sid : String)
    (hp : req.meta.proxy = none)
    (hs : req.meta.proxy_session_id = none)
    (hua : alookup req.headers ("User-Agent") = none)
    (hsid : (process_request pyHash now rand cands mw req).req.meta.proxy_session_id =
      some sid) :
    alookup (process_request pyHash now rand cands mw req).req.headers ("User-Agent") =
      some (getRotatedUserAgent pyHash sid) ∧
    ∀ k, k ≠ ("User-Agent") →
      alookup (process_request pyHash now rand cands mw req).req.headers k =
        alookup req.headers k := by
  unfold process_request at hsid ⊢
  by_cases he : mw.enabled = true
  case neg =>
    simp only [Bool.not_eq_true] at he
    rw [if_pos (by rw [he]; rfl)] at hsid
    dsimp only at hsid
    rw [hs] at hsid
    exact absurd hsid (by simp)
  case pos =>
    rw [if_neg (by simp [he])] at hsid ⊢
    rw [if_neg (by simp [hp])] at hsid ⊢
    by_cases hsk : shouldSkipRequest req = true
    · rw [if_pos hsk] at hsid
      dsimp only at hsid
      rw [hs] at hsid
      exact absurd hsid (by simp)
    · rw [if_neg hsk] at hsid ⊢
      cases hgp : get_proxy now rand cands mw.pm with
      | noProxy pm2 =>
        rw [hgp] at hsid
        dsimp only at hsid
        rw [hs] at hsid
        exact absurd hsid (by simp)
      | raised e pm2 =>
        rw [hgp] at hsid
        dsimp only at hsid
        rw [hs] at hsid
        exact absurd hsid (by simp)
      | fuelOut pm2 =>
        rw [hgp] at hsid
        dsimp only at hsid
        rw [hs] at hsid
        exact absurd hsid (by simp)
      | ok url md pm2 =>
        rw [hgp] at hsid
        dsimp only at hsid ⊢
        have hcond : ¬ ((alookup req.headers ("User-Agent")).isSome = true) := by
          rw [hua]; simp
        rw [if_neg hcond] at hsid ⊢
        dsimp only at hsid
        have hmd : md.proxy_session_id = sid := Option.some.inj hsid
        constructor
        · rw [alookup_append, hua, hmd]
          simp [alookup]
        · intro k hk
          rw [alookup_append]
          cases hlk : alookup req.headers k with
          | some v => rfl
          | none =>
            have hne : ¬ (("User-Agent") : String) = k := fun h => hk h.symm
            simp [alookup, hne]

/-- C5 counterexample: against the concrete single-session manager, a
request with no caller-supplied User-Agent leaves process_request carrying
the rotated User-Agent but none of the baseline BrowserProfile companion
headers: Accept-Language, Accept-Encoding and Accept are absent, because
the middleware only ever sets the User-Agent header. -/
theorem c5_profile_headers_absent :
    (process_request pyHash0 10 rand0 [("scraper-bbbb")] mwOne reqPlain).req.meta.proxy_session_id
      = some ("scraper-aaaa") ∧
    alookup (process_request pyHash0 10 rand0 [("scraper-bbbb")] mwOne reqPlain).req.headers
      ("User-Agent") = some (getRotatedUserAgent pyHash0 ("scraper-aaaa")) ∧
    alookup (process_request pyHash0 10 rand0 [("scraper-bbbb")] mwOne reqPlain).req.headers
      ("Accept-Language") = none ∧
    alookup (process_request pyHash0 10 rand0 [("scraper-bbbb")] mwOne reqPlain).req.headers
      ("Accept-Encoding") = none ∧
    alookup (process_request pyHash0 10 rand0 [("scraper-bbbb")] mwOne reqPlain).req.headers
      ("Accept") = none := by
  refine ⟨by decide, by decide, by decide, by decide, by decide⟩

/-- C5 amended: for a fixed session id and a fixed per-process hash, every
request that reaches process_request with no proxy set and no
caller-supplied User-Agent and comes out attached to that session carries
the same User-Agent, the one the hash of the session id selects from the
middleware list; no other header (in particular none of the BrowserProfile
companion headers) is added or changed by the hook. -/
theorem c5_user_agent_stable (pyHash : String → Nat) (nowA nowB : Int) (randA randB : Rand)
    (candsA candsB : List String) (mwA mwB : BDMiddleware) (reqA reqB : Request) (sid : String)
    (hpA : reqA.meta.proxy = none)
    (hsA : reqA.meta.proxy_session_id = none)
    (huaA : alookup reqA.headers ("User-Agent") = none)
    (hpB : reqB.meta.proxy = none)
    (hsB : reqB.meta.proxy_session_id = none)
    (huaB : alookup reqB.headers ("User-Agent") = none)
    (hsidA : (process_request pyHash nowA randA candsA mwA reqA).req.meta.proxy_session_id =
      some sid)
    (hsidB : (process_request pyHash nowB randB candsB mwB reqB).req.meta.proxy_session_id =
      some sid) :
    alookup (process_request pyHash nowA randA candsA mwA reqA).req.headers ("User-Agent") =
      some (getRotatedUserAgent pyHash sid) ∧
    alookup (process_request pyHash nowB randB candsB mwB reqB).req.headers ("User-Agent") =
      some (getRotatedUserAgent pyHash sid) ∧
    ∀ k, k ≠ ("User-Agent") →
      alookup (process_request pyHash nowA randA candsA mwA reqA).req.headers k =
        alookup reqA.headers k := by
  obtain ⟨ha1, ha2⟩ := process_request_attach pyHash nowA randA candsA mwA reqA sid hpA hsA huaA hsidA
  obtain ⟨hb1, _⟩ := process_request_attach pyHash nowB randB candsB mwB reqB sid hpB hsB huaB hsidB
  exact ⟨ha1, hb1, ha2⟩

/-- C5 witness: two acquisitions against the single-session manager, at
instants 10 and 11, both attach scraper-aaaa and carry the same
User-Agent. -/
theorem c5_user_agent_stable_witness :
    alookup (process_request pyHash0 10 rand0 [("scraper-bbbb")] mwOne reqPlain).req.headers
      ("User-Agent") = some (getRotatedUserAgent pyHash0 ("scraper-aaaa")) ∧
    alookup (process_request pyHash0 11 rand0 [("scraper-bbbb")] mwOne reqPlain).req.headers
      ("User-Agent") = some (getRotatedUserAgent pyHash0 ("scraper-aaaa")) := by
  have h := c5_user_agent_stable pyHash0 10 11 rand0 rand0 [("scraper-bbbb")] [("scraper-bbbb")]
    mwOne mwOne reqPlain reqPlain ("scraper-aaaa") (by decide) (by decide) (by decide)
    (by decide) (by decide) (by decide) (by decide) (by decide)
  exact ⟨h.1, h.2.1⟩

/-! Lemmas for the registry invariant C8. -/

/-- The BrightdataConfig constructor call of _ensure_sessions always
raises: session_id is not among the dataclass fields. -/
theorem callBrightdataConfig_session_id (u p e : String) (pt : Nat) (z c : String) :
    callBrightdataConfig ensureCallKwargs u p e pt z c =
      Except.error (PyErr.typeError ("unexpected keyword argument session_id")) := by
  unfold callBrightdataConfig
  rw [if_neg (by decide)]

/-- The creation loop never changes the manager state: blacklisted
candidates are skipped, and the first accepted candidate raises before any
insertion. -/
theorem ensureLoop_state (now : Int) (cfg : BrightdataConfig) (cands : List String) :
    ∀ (ac : Nat) (pm : ProxyManager), (ensureLoop now cfg cands ac pm).state = pm := by
  induction cands with
  | nil =>
    intro ac pm
    unfold ensureLoop
    split
    · rfl
    · rfl
  | cons c rest ih =>
    intro ac pm
    unfold ensureLoop
    split
    · dsimp only
      split
      · exact ih ac pm
      · rw [callBrightdataConfig_session_id]
        rfl
    · rfl

/-- _ensure_sessions never changes the manager state. -/
theorem ensure_sessions_state (now : Int) (cands : List String) (pm : ProxyManager) :
    (ensure_sessions now cands pm).state = pm := by
  unfold ensure_sessions
  split
  · rfl
  · exact ensureLoop_state now _ cands _ pm

/-- record_success touches only the metrics map. -/
theorem record_success_frame (now : Int) (s : String) (rt : PyF) (pm : ProxyManager) :
    (record_success now s rt pm).sessions = pm.sessions ∧
    (record_success now s rt pm).blacklisted_sessions = pm.blacklisted_sessions ∧
    (record_success now s rt pm).blacklist_duration = pm.blacklist_duration := by
  unfold record_success
  split
  · exact ⟨rfl, rfl, rfl⟩
  · exact ⟨rfl, rfl, rfl⟩

/-- record_failure either is a no-op, or touches only the metrics map, or
additionally blacklists the id: erases it from the sessions and stamps it
into the blacklist. -/
theorem record_failure_cases (now : Int) (s : String) (et : String) (pm : ProxyManager) :
    record_failure now s et pm = pm ∨
    ((record_failure now s et pm).sessions = pm.sessions ∧
      (record_failure now s et pm).blacklisted_sessions = pm.blacklisted_sessions ∧
      (record_failure now s et pm).blacklist_duration = pm.blacklist_duration) ∨
    ((record_failure now s et pm).sessions = aerase pm.sessions s ∧
      (record_failure now s et pm).blacklisted_sessions =
        aupdate pm.blacklisted_sessions s now ∧
      (record_failure now s et pm).blacklist_duration = pm.blacklist_duration) := by
  unfold record_failure
  split
  · exact Or.inl rfl
  · dsimp only
    by_cases h1 : et = ("blocked")
    · rw [if_pos h1]
      split
      · exact Or.inr (Or.inr ⟨rfl, rfl, rfl⟩)
      · exact Or.inr (Or.inl ⟨rfl, rfl, rfl⟩)
    · rw [if_neg h1]
      by_cases h2 : et = ("timeout")
      · rw [if_pos h2]
        split
        · exact Or.inr (Or.inr ⟨rfl, rfl, rfl⟩)
        · exact Or.inr (Or.inl ⟨rfl, rfl, rfl⟩)
      · rw [if_neg h2]
        split
        · exact Or.inr (Or.inr ⟨rfl, rfl, rfl⟩)
        · exact Or.inr (Or.inl ⟨rfl, rfl, rfl⟩)

/-- An entry of an erased map was an entry before, with a different key. -/
theorem mem_aerase {α : Type} (l : List (String × α)) (k : String) (q : String × α)
    (h : q ∈ aerase l k) : q ∈ l ∧ q.1 ≠ k := by
  unfold aerase at h
  refine ⟨List.mem_of_mem_filter h, ?_⟩
  have hq := List.of_mem_filter h
  simpa using hq

/-- The executable no-overlap check unfolded to its meaning. -/
theorem noOverlap_iff (pm : ProxyManager) :
    noOverlap pm = true ↔
      ∀ q ∈ pm.sessions, alookup pm.blacklisted_sessions q.1 = none := by
  unfold noOverlap
  rw [List.all_eq_true]
  constructor
  · intro h q hq
    have hb := h q hq
    cases halo : alookup pm.blacklisted_sessions q.1 with
    | none => rfl
    | some v => rw [halo] at hb; simp at hb
  · intro h q hq
    rw [h q hq]
    rfl

/-- Under the invariant, a blacklisted id has no active session. -/
theorem noOverlap_lookup_none (pm : ProxyManager) (hI : noOverlap pm = true)
    (s : String) (t0 : Int) (hb : alookup pm.blacklisted_sessions s = some t0) :
    alookup pm.sessions s = none := by
  cases hss : alookup pm.sessions s with
  | none => rfl
  | some v =>
    have hmem := alookup_some_mem _ _ _ hss
    have hnone := (noOverlap_iff pm).mp hI _ hmem
    rw [hnone] at hb
    cases hb

/-- Cleanup preserves the no-overlap facts entrywise. -/
theorem cleanup_no_overlap (now : Int) (pm : ProxyManager) (hI : noOverlap pm = true) :
    ∀ q ∈ (cleanup_expired now pm).sessions,
      alookup (cleanup_expired now pm).blacklisted_sessions q.1 = none := by
  intro q hq
  have hq' : q ∈ pm.sessions := List.mem_of_mem_filter hq
  exact alookup_none_filter _ _ _ ((noOverlap_iff pm).mp hI q hq')

/-- A blacklist entry still inside its TTL window survives cleanup. -/
theorem cleanup_black_keep (now : Int) (pm : ProxyManager) (s : String) (t0 : Int)
    (hb : alookup pm.blacklisted_sessions s = some t0)
    (hle : now - t0 ≤ pm.blacklist_duration) :
    alookup (cleanup_expired now pm).blacklisted_sessions s = some t0 := by
  apply alookup_filter_of_holds _ _ _ _ hb
  simp only [Bool.not_eq_true', decide_eq_false_iff_not, not_lt]
  omega

/-- A key absent from the sessions map stays absent after cleanup. -/
theorem cleanup_sessions_none (now : Int) (pm : ProxyManager) (s : String)
    (h : alookup pm.sessions s = none) :
    alookup (cleanup_expired now pm).sessions s = none :=
  alookup_none_filter _ _ _ h

/-- The healthy-session comprehension only keeps sessions of its input. -/
theorem healthyFilter_subset (now : Int) (l : List (String × ProxySession)) :
    ∀ (mets : List (String × ProxyMetrics)) (q : String × ProxySession),
      q ∈ (healthyFilter now l mets).1 → q ∈ l := by
  induction l with
  | nil => intro mets q h; simp [healthyFilter] at h
  | cons p ps ih =>
    intro mets q h
    unfold healthyFilter at h
    split at h
    · exact List.mem_cons_of_mem _ (ih _ q h)
    · dsimp only at h
      split at h
      · rcases List.mem_cons.mp h with h' | h'
        · rw [h']; exact List.mem_cons_self _ _
        · exact List.mem_cons_of_mem _ (ih _ q h')
      · exact List.mem_cons_of_mem _ (ih _ q h)

/-- The Python min fold returns one of its candidates. -/
theorem foldl_min_mem (ps : List (String × ProxySession)) :
    ∀ p, ps.foldl
        (fun best x => if x.2.requests_count < best.2.requests_count then x else best) p ∈
      p :: ps := by
  induction ps with
  | nil => intro p; simp
  | cons x xs ih =>
    intro p
    rw [List.foldl_cons]
    rcases List.mem_cons.mp (ih (if x.2.requests_count < p.2.requests_count then x else p))
      with h' | h'
    · rw [h']
      split
      · exact List.mem_cons_of_mem _ (List.mem_cons_self _ _)
      · exact List.mem_cons_self _ _
    · exact List.mem_cons_of_mem _ (List.mem_cons_of_mem _ h')

/-- The least-used fallback returns one of its candidates. -/
theorem minByRequests_mem (p : String × ProxySession) (ps : List (String × ProxySession)) :
    minByRequests p ps ∈ p :: ps :=
  foldl_min_mem ps p

/-- The cumulative-weight scan returns one of its candidates. -/
theorem pickWeighted_mem (rv : PyF) :
    ∀ (ws : List PyF) (acc : PyF) (qs : List (String × ProxySession))
      (q : String × ProxySession), pickWeighted rv acc ws qs = some q → q ∈ qs := by
  intro ws
  induction ws with
  | nil => intro acc qs q h; simp [pickWeighted] at h
  | cons w ws' ih =>
    intro acc qs q h
    cases qs with
    | nil => simp [pickWeighted] at h
    | cons x xs =>
      unfold pickWeighted at h
      split at h
      · rw [Option.some.inj h] at *
        exact List.mem_cons_self _ _
      · exact List.mem_cons_of_mem _ (ih _ xs q h)

/-- The last element of a nonempty list is one of its elements. -/
theorem lastP_mem {α : Type} (h : α) (l : List α) : lastP h l ∈ h :: l := by
  induction l generalizing h with
  | nil => simp [lastP]
  | cons x xs ih =>
    unfold lastP
    rcases List.mem_cons.mp (ih x) with h' | h'
    · rw [h']; exact List.mem_cons_of_mem _ (List.mem_cons_self _ _)
    · exact List.mem_cons_of_mem _ (List.mem_cons_of_mem _ h')

/-- The weighted strategy returns one of its candidates. -/
theorem weightedSelect_mem (rv : PyF) (h : String × ProxySession)
    (hs : List (String × ProxySession)) (mets : List (String × ProxyMetrics)) :
    (weightedSelect rv h hs mets).1 ∈ h :: hs := by
  unfold weightedSelect
  dsimp only
  split
  · exact List.mem_cons_self _ _
  · split
    next q heq => exact pickWeighted_mem rv _ _ _ q heq
    next heq => exact lastP_mem h hs

/-- Any session select_next returns is one of the supplied sessions. -/
theorem selectNext_mem (now : Int) (rand : Rand) (pairs : List (String × ProxySession))
    (rot : ProxyRotator) (mets : List (String × ProxyMetrics)) (sel : String × ProxySession)
    (h : (selectNext now rand pairs rot mets).1 = some sel) : sel ∈ pairs := by
  cases pairs with
  | nil => simp [selectNext] at h
  | cons p ps =>
    unfold selectNext at h
    dsimp only at h
    rcases hhf : (healthyFilter now (p :: ps) mets).1 with _ | ⟨hh, hhs⟩
    · rw [hhf] at h
      dsimp only at h
      rw [← Option.some.inj h]
      exact minByRequests_mem p ps
    · rw [hhf] at h
      dsimp only at h
      have hsub : ∀ x, x ∈ hh :: hhs → x ∈ p :: ps := by
        intro x hx
        apply healthyFilter_subset now (p :: ps) mets x
        rw [hhf]
        exact hx
      split at h
      · exact hsub sel (List.get?_mem h)
      · split at h
        · apply hsub
          rw [← Option.some.inj h]
          exact weightedSelect_mem _ hh hhs _
        · split at h
          · exact hsub sel (List.get?_mem h)
          · apply hsub
            rw [← Option.some.inj h]
            exact List.mem_cons_self _ _

/-- Every get_proxy run leaves the manager state in one of three shapes:
untouched, the cleaned state with only rotator and metrics moved, or the
cleaned state with additionally one of its own sessions updated in place
by use() (and the rotation counter moved). -/
theorem get_proxy_state_shape (now : Int) (rand : Rand) (cands : List String)
    (pm : ProxyManager) :
    (get_proxy now rand cands pm).state = pm ∨
    (∃ rot mets, (get_proxy now rand cands pm).state =
        { cleanup_expired now pm with rotator := rot, metrics := mets }) ∨
    (∃ q rot mets n, q ∈ (cleanup_expired now pm).sessions ∧
      (get_proxy now rand cands pm).state =
        { cleanup_expired now pm with
            sessions := aupdate (cleanup_expired now pm).sessions q.1 (q.2.use now),
            rotator := rot, metrics := mets, requests_since_rotation := n }) := by
  unfold get_proxy
  split
  · exact Or.inl rfl
  · dsimp only
    cases hE : ensure_sessions now cands (cleanup_expired now pm) with
    | raised e pm2 =>
      have hpm2 : pm2 = cleanup_expired now pm := by
        have h := ensure_sessions_state now cands (cleanup_expired now pm)
        rw [hE] at h
        exact h
      subst hpm2
      exact Or.inr (Or.inl ⟨_, _, rfl⟩)
    | fuelOut pm2 =>
      have hpm2 : pm2 = cleanup_expired now pm := by
        have h := ensure_sessions_state now cands (cleanup_expired now pm)
        rw [hE] at h
        exact h
      subst hpm2
      exact Or.inr (Or.inl ⟨_, _, rfl⟩)
    | ok pm2 =>
      have hpm2 : pm2 = cleanup_expired now pm := by
        have h := ensure_sessions_state now cands (cleanup_expired now pm)
        rw [hE] at h
        exact h
      subst hpm2
      dsimp only
      split
      · exact Or.inr (Or.inl ⟨_, _, rfl⟩)
      · cases hr : (selectNext now rand
            ((cleanup_expired now pm).sessions.filter (fun p => !(p.2.is_expired now)))
            (cleanup_expired now pm).rotator (cleanup_expired now pm).metrics).1 with
        | none => exact Or.inr (Or.inl ⟨_, _, rfl⟩)
        | some sel =>
          have hmem : sel ∈ (cleanup_expired now pm).sessions.filter
              (fun p => !(p.2.is_expired now)) :=
            selectNext_mem _ _ _ _ _ _ hr
          exact Or.inr (Or.inr ⟨sel, _, _, _, List.mem_of_mem_filter hmem, rfl⟩)

/-- C8: every manager operation preserves the no-overlap invariant (no
session id both active and blacklisted), and for every id blacklisted at
t0 and still inside its TTL window the id stays blacklisted, absent from
the active map, and is never produced by session creation (which skips
blacklist collisions and, in this code, never inserts at all). -/
theorem c8_no_overlap_invariant (now : Int) (op : MgrOp) (pm : ProxyManager)
    (hI : noOverlap pm = true) :
    noOverlap (applyOp now op pm) = true ∧
    ∀ s t0, alookup pm.blacklisted_sessions s = some t0 →
      now - t0 ≤ pm.blacklist_duration →
      ((alookup (applyOp now op pm).blacklisted_sessions s).isSome = true ∧
        alookup (applyOp now op pm).sessions s = none) := by
  cases op with
  | cleanup =>
    dsimp only [applyOp]
    constructor
    · rw [noOverlap_iff]
      exact cleanup_no_overlap now pm hI
    · intro s t0 hb hle
      refine ⟨?_, cleanup_sessions_none now pm s (noOverlap_lookup_none pm hI s t0 hb)⟩
      rw [cleanup_black_keep now pm s t0 hb hle]
      rfl
  | ensure cands =>
    dsimp only [applyOp]
    rw [ensure_sessions_state]
    refine ⟨hI, fun s t0 hb hle => ⟨?_, noOverlap_lookup_none pm hI s t0 hb⟩⟩
    rw [hb]
    rfl
  | recSuccess sid rt =>
    dsimp only [applyOp]
    obtain ⟨h1, h2, h3⟩ := record_success_frame now sid rt pm
    constructor
    · unfold noOverlap at hI ⊢
      rw [h1, h2]
      exact hI
    · intro s t0 hb hle
      constructor
      · rw [h2, hb]; rfl
      · rw [h1]; exact noOverlap_lookup_none pm hI s t0 hb
  | recFailure sid et =>
    dsimp only [applyOp]
    rcases record_failure_cases now sid et pm with heq | ⟨h1, h2, h3⟩ | ⟨h1, h2, h3⟩
    · rw [heq]
      refine ⟨hI, fun s t0 hb hle => ⟨?_, noOverlap_lookup_none pm hI s t0 hb⟩⟩
      rw [hb]
      rfl
    · constructor
      · unfold noOverlap at hI ⊢
        rw [h1, h2]
        exact hI
      · intro s t0 hb hle
        exact ⟨by rw [h2, hb]; rfl, by rw [h1]; exact noOverlap_lookup_none pm hI s t0 hb⟩
    · constructor
      · rw [noOverlap_iff]
        intro q hq
        rw [h1] at hq
        obtain ⟨hql, hqs⟩ := mem_aerase _ _ _ hq
        rw [h2, alookup_aupdate_ne _ _ _ _ hqs]
        exact (noOverlap_iff pm).mp hI q hql
      · intro s t0 hb hle
        constructor
        · rw [h2]
          by_cases hs : s = sid
          · rw [hs, alookup_aupdate_self]; rfl
          · rw [alookup_aupdate_ne _ _ _ _ hs, hb]; rfl
        · rw [h1]
          by_cases hs : s = sid
          · rw [hs]; exact alookup_aerase_self _ _
          · rw [alookup_aerase_ne _ _ _ hs]
            exact noOverlap_lookup_none pm hI s t0 hb
  | blacklist sid =>
    dsimp only [applyOp]
    constructor
    · rw [noOverlap_iff]
      intro q hq
      obtain ⟨hql, hqs⟩ := mem_aerase _ _ _ hq
      show alookup (aupdate pm.blacklisted_sessions sid now) q.1 = none
      rw [alookup_aupdate_ne _ _ _ _ hqs]
      exact (noOverlap_iff pm).mp hI q hql
    · intro s t0 hb hle
      constructor
      · show (alookup (aupdate pm.blacklisted_sessions sid now) s).isSome = true
        by_cases hs : s = sid
        · rw [hs, alookup_aupdate_self]; rfl
        · rw [alookup_aupdate_ne _ _ _ _ hs, hb]; rfl
      · show alookup (aerase pm.sessions sid) s = none
        by_cases hs : s = sid
        · rw [hs]; exact alookup_aerase_self _ _
        · rw [alookup_aerase_ne _ _ _ hs]
          exact noOverlap_lookup_none pm hI s t0 hb
  | acquire rand cands =>
    dsimp only [applyOp]
    rcases get_proxy_state_shape now rand cands pm with hsh | ⟨rot, mets, hsh⟩ |
      ⟨q, rot, mets, n, hq, hsh⟩
    · rw [hsh]
      refine ⟨hI, fun s t0 hb hle => ⟨?_, noOverlap_lookup_none pm hI s t0 hb⟩⟩
      rw [hb]
      rfl
    · rw [hsh]
      constructor
      · rw [noOverlap_iff]
        intro q hq
        exact cleanup_no_overlap now pm hI q hq
      · intro s t0 hb hle
        refine ⟨?_, cleanup_sessions_none now pm s (noOverlap_lookup_none pm hI s t0 hb)⟩
        show (alookup (cleanup_expired now pm).blacklisted_sessions s).isSome = true
        rw [cleanup_black_keep now pm s t0 hb hle]
        rfl
    · rw [hsh]
      constructor
      · rw [noOverlap_iff]
        intro q' hq'
        show alookup (cleanup_expired now pm).blacklisted_sessions q'.1 = none
        rcases mem_aupdate _ _ _ _ hq' with hin | hkey
        · exact cleanup_no_overlap now pm hI q' hin
        · rw [hkey]
          exact cleanup_no_overlap now pm hI q hq
      · intro s t0 hb hle
        have hsn : alookup (cleanup_expired now pm).sessions s = none :=
          cleanup_sessions_none now pm s (noOverlap_lookup_none pm hI s t0 hb)
        have hqs : s ≠ q.1 := by
          intro hss
          have hsome := mem_alookup_isSome (cleanup_expired now pm).sessions q.1 q.2 hq
          rw [← hss, hsn] at hsome
          cases hsome
        constructor
        · show (alookup (cleanup_expired now pm).blacklisted_sessions s).isSome = true
          rw [cleanup_black_keep now pm s t0 hb hle]
          rfl
        · show alookup (aupdate (cleanup_expired now pm).sessions q.1 (q.2.use now)) s = none
          rw [alookup_aupdate_ne _ _ _ _ hqs]
          exact hsn

/-- C8 witness: recording a failure against a manager with one live
session, one blacklisted id (stamped at 100, checked at 200, inside the
30-minute TTL) and a metrics entry preserves the invariant and keeps the
blacklisted id excluded. -/
theorem c8_no_overlap_invariant_witness :
    noOverlap (applyOp 200 (MgrOp.recFailure ("scraper-xxxx") ("blocked")) pmW8) = true ∧
    (alookup (applyOp 200 (MgrOp.recFailure ("scraper-xxxx") ("blocked"))
        pmW8).blacklisted_sessions ("scraper-dead")).isSome = true := by
  have h := c8_no_overlap_invariant 200 (MgrOp.recFailure ("scraper-xxxx") ("blocked")) pmW8
    (by decide)
  exact ⟨h.1, (h.2 ("scraper-dead") 100 (by decide) (by decide)).1⟩

end RetailFlux
